import Mathlib

/-!
Shallow embedding of the protocol layer of pyMooltipass
(`pyMooltipass/mooltipass.py` over `pyMooltipass/hid.py`).

Bytes are modelled as `Nat` (HID packets are lists of bytes), the transport
as a stream `Nat → TReply` giving the packet (or timeout) returned by the
k-th `read` call, and Python exceptions as an explicit error type `PyErr`.
Loops that the source bounds only via the device's eventual answers take a
`fuel` argument and return `none` when the fuel runs out (the execution is
still looping); loops the source bounds by a counter are translated by
well-founded recursion on that counter.
-/

/-- Python exceptions raised by the code under study. -/
inductive PyErr
  | timeoutError
  | interruptedError
  | indexError
  | keyError
  | valueError
  | typeError
  | ioError
deriving DecidableEq

/-- One reply of the transport to a `read` call: either a timeout
(`hid.HIDDevice.read` turns a USB timeout into `TimeoutError`) or a raw
fixed-size HID packet. -/
inductive TReply
  | timeout
  | packet (data : List Nat)
deriving DecidableEq

/-- Observable protocol events: a command write (opcode and payload bytes of
the encoded packet), a transport read, and a blocking sleep in ms. -/
inductive Ev
  | send (cmd : Nat) (payload : List Nat)
  | read
  | sleepMs (ms : Nat)
deriving DecidableEq

/-! ### Constants from `mooltipass.py` -/

def SUCCESS : Nat := 0x01
def LEN_INDEX : Nat := 0x00
def CMD_INDEX : Nat := 0x01
def DATA_INDEX : Nat := 0x02
def SERVICE_INDEX : Nat := 0x08
def LOGIN_INDEX : Nat := 37
def BITMAP_ID_OFFSET : Nat := 128
def KEYBD_ID_OFFSET : Nat := BITMAP_ID_OFFSET + 18

/-- HID report payload capacity: 64-byte packets minus the length and
opcode bytes. -/
def MTU : Nat := 62

def PING : Nat := 0xA1
def VERSION : Nat := 0xA2
def START_MEMORYMGMT : Nat := 0xAD
def SET_MOOLTIPASS_PARM : Nat := 0xB1
def GET_MOOLTIPASS_PARM : Nat := 0xB2
def MOOLTIPASS_STATUS : Nat := 0xB9
def READ_FLASH_NODE : Nat := 0xC5
def GET_FAVORITE : Nat := 0xC7
def END_MEMORYMGMT : Nat := 0xD3

def NO_CARDS : Nat := 0
def LOCKED : Nat := 1
def UNLOCKING : Nat := 3
def UNLOCKED : Nat := 5
def INVALID_SMARTCARD : Nat := 9

/-- One entry of the `Mooltipass.STATUS` table. -/
structure StatusEntry where
  status : Nat
  text : String
deriving DecidableEq

/-- `Mooltipass.STATUS` (keys are the raw status byte). -/
def STATUS : List (Nat × StatusEntry) :=
  [(0, ⟨NO_CARDS, "no smartcard"⟩),
   (1, ⟨LOCKED, "locked"⟩),
   (3, ⟨UNLOCKING, "unlocking"⟩),
   (5, ⟨UNLOCKED, "unlocked"⟩),
   (9, ⟨INVALID_SMARTCARD, "unknown smartcard"⟩)]

/-- `Mooltipass.PARAMETERS`. -/
def PARAMETERS : List (String × Nat) :=
  [("keyboard_layout", 1), ("user_inter_timeout", 2), ("lock_timeout_enable", 3),
   ("lock_timeout", 4), ("touch_di", 5), ("touch_wheel_os_old", 6),
   ("touch_prox_os", 7), ("offline_mode", 8), ("screensaver", 9),
   ("touch_charge_time", 10), ("touch_wheel_os0", 11), ("touch_wheel_os1", 12),
   ("touch_wheel_os2", 13), ("flash_screen", 14), ("user_req_cancel", 15),
   ("tutorial_bool", 16), ("screen_saver_speed", 17)]

/-- `Mooltipass.KEYBOARD_LAYOUT`. -/
def KEYBOARD_LAYOUT : List (String × Nat) :=
  [("EN_US", 0), ("FR_FR", 1), ("ES_ES", 2), ("DE_DE", 3), ("ES_AR", 4),
   ("EN_AU", 5), ("FR_BE", 6), ("PO_BR", 7), ("EN_CA", 8), ("CZ_CZ", 9),
   ("DA_DK", 10), ("FI_FI", 11), ("HU_HU", 12), ("IS_IS", 13), ("IT_IT", 14),
   ("NL_NL", 15), ("NO_NO", 16), ("PO_PO", 17), ("RO_RO", 18), ("SL_SL", 19),
   ("FRDE_CH", 20), ("EN_UK", 21)]

/-! ### Helpers -/

/-- Python sequence indexing `l[i]` for a non-negative index: raises
`IndexError` out of range. -/
def pyGet (l : List Nat) (i : Nat) : Except PyErr Nat :=
  match l[i]? with
  | some v => .ok v
  | none => .error .indexError

/-! ### Packet codec

`_send_command` encodes `[len(payload), opcode, payload...]`
(`_data << len(_data_val)`, `_data << command`, `_data << _data_val`).
`_read_data` decodes by reading the declared length at index 0, the
opcode at index 1, and slicing `data[2 : 2 + data[0]]`. -/

/-- The packet `_send_command` writes for `command` with payload bytes
`payload`. -/
def sendPacket (opcode : Nat) (payload : List Nat) : List Nat :=
  payload.length :: opcode :: payload

/-- The (declared length, opcode, payload slice) a received packet decodes
to, with the payload sliced to `data[2 : 2 + data[0]]` exactly as
`_read_data` returns it. -/
def decodePacket (data : List Nat) : Nat × Nat × List Nat :=
  (data.getD 0 0, data.getD 1 0, (data.drop DATA_INDEX).take (data.getD 0 0))

/-- `_res[_beginning:self.DATA_INDEX+_res[0]]` with `_beginning =
DATA_INDEX`; `_res[0]` raises on an empty packet. -/
def sliceData (data : List Nat) : Except PyErr (List Nat) :=
  match pyGet data 0 with
  | .error e => .error e
  | .ok len => .ok ((data.drop DATA_INDEX).take len)

/-- The short-circuiting test
`_res[CMD_INDEX] == MOOLTIPASS_STATUS and _res[DATA_INDEX] == UNLOCKING`. -/
def isUnlockingStatus (data : List Nat) : Except PyErr Bool :=
  match pyGet data CMD_INDEX with
  | .error e => .error e
  | .ok c =>
    if c = MOOLTIPASS_STATUS then
      match pyGet data DATA_INDEX with
      | .error e => .error e
      | .ok s => .ok (s = UNLOCKING)
    else .ok false

/-- `_read_data` with default keyword arguments (`full_packet = False`,
`retry_on_locked = False`): a transport timeout surfaces as
`TimeoutError`; an `Unlocking` status packet raises
`InterruptedError("Mooltipass not ready")`; otherwise the payload slice is
returned. -/
def readData (r : TReply) : Except PyErr (List Nat) :=
  match r with
  | .timeout => .error .timeoutError
  | .packet data =>
    match isUnlockingStatus data with
    | .error e => .error e
    | .ok true => .error .interruptedError
    | .ok false => sliceData data

/-! ### C2 and C3 -/

/-- C2: for every response packet whose opcode byte (index 1) is
`MOOLTIPASS_STATUS` and whose first data byte (index 2) is the `Unlocking`
status code, `_read_data` without retry-on-locked raises
`InterruptedError` and never returns a decoded payload. -/
theorem readData_unlocking_interrupts (data : List Nat)
    (hcmd : data[CMD_INDEX]? = some MOOLTIPASS_STATUS)
    (hdat : data[DATA_INDEX]? = some UNLOCKING) :
    readData (.packet data) = .error .interruptedError ∧
      ∀ p : List Nat, readData (.packet data) ≠ .ok p := by
  have h : readData (.packet data) = .error .interruptedError := by
    simp [readData, isUnlockingStatus, pyGet, hcmd, hdat]
  exact ⟨h, fun p hp => by rw [h] at hp; exact Except.noConfusion hp⟩

/-- Witness for `readData_unlocking_interrupts` at the concrete packet
`[0x01, 0xB9, 0x03]`. -/
theorem readData_unlocking_interrupts_witness :
    readData (.packet [0x01, 0xB9, 0x03]) = .error .interruptedError :=
  (readData_unlocking_interrupts [0x01, 0xB9, 0x03] (by decide) (by decide)).1

/-- C3: framing round-trip. For every opcode and payload of length at most
the MTU, encoding as `_send_command` does and decoding the packet (with
any transport padding appended) as `_read_data` does yields the declared
length `payload.length`, the opcode, and the original payload, with the
padding discarded. -/
theorem decode_sendPacket (opcode : Nat) (payload pad : List Nat)
    (hlen : payload.length ≤ MTU) :
    decodePacket (sendPacket opcode payload ++ pad) =
      (payload.length, opcode, payload) := by
  simp [decodePacket, sendPacket, DATA_INDEX, List.take_left]

/-- Witness for `decode_sendPacket` at opcode `0xA1`, payload `[7, 8]`,
padding `[0, 0, 0]`. -/
theorem decode_sendPacket_witness :
    decodePacket (sendPacket 0xA1 [7, 8] ++ [0, 0, 0]) = (2, 0xA1, [7, 8]) :=
  decode_sendPacket 0xA1 [7, 8] [0, 0, 0] (by decide)

/-! ### Parameter access (`_set_parameter`, `_get_parameter`) -/

/-- `_set_parameter(param, value)`: looks up the parameter index, sends
`SET_MOOLTIPASS_PARM` with payload `[index, value]` and reads the reply
`r`.  On a non-success first byte the source executes
`raise ValueError("...".format(hex(param)))`, but `param` there is the
parameter *name* (a string), so `hex(param)` itself raises `TypeError`
before the `ValueError` can be constructed. -/
def setParameter (param : String) (value : Nat) (r : TReply) :
    Except PyErr Unit × List Ev :=
  match (List.lookup param PARAMETERS : Option Nat) with
  | none => (.error .keyError, [])
  | some idx =>
    let tr := [Ev.send SET_MOOLTIPASS_PARM [idx, value], Ev.read]
    match readData r with
    | .error e => (.error e, tr)
    | .ok res =>
      match pyGet res 0 with
      | .error e => (.error e, tr)
      | .ok b =>
        if b = SUCCESS then (.ok (), tr)
        else (.error .typeError, tr)

/-- `_get_parameter(param)`: sends `GET_MOOLTIPASS_PARM` with payload
`[index]` and returns the raw decoded reply bytes. -/
def getParameter (param : String) (r : TReply) :
    Except PyErr (List Nat) × List Ev :=
  match (List.lookup param PARAMETERS : Option Nat) with
  | none => (.error .keyError, [])
  | some idx =>
    let tr := [Ev.send GET_MOOLTIPASS_PARM [idx], Ev.read]
    (readData r, tr)

/-- C6, evaluated at the failing input: `set_parameter("keyboard_layout",
5)` answered by a packet whose first data byte is `0x00` (not the success
code) sends exactly one `SET_MOOLTIPASS_PARM` command and then raises
`TypeError` (from `hex(param)` applied to the parameter-name string while
formatting the intended rejection message) instead of the intended
`ValueError`/ParameterRejected. -/
theorem setParameter_rejected_raises_typeError :
    setParameter "keyboard_layout" 5 (.packet [0x01, 0xB1, 0x00]) =
      (.error .typeError, [Ev.send SET_MOOLTIPASS_PARM [1, 5], Ev.read]) ∧
    setParameter "keyboard_layout" 5 (.packet [0x01, 0xB1, 0x00]) ≠
      (.error .valueError, [Ev.send SET_MOOLTIPASS_PARM [1, 5], Ev.read]) ∧
    setParameter "keyboard_layout" 5 (.packet [0x01, 0xB1, 0x01]) =
      (.ok (), [Ev.send SET_MOOLTIPASS_PARM [1, 5], Ev.read]) := by
  have h1 : setParameter "keyboard_layout" 5 (.packet [0x01, 0xB1, 0x00]) =
      (.error .typeError, [Ev.send SET_MOOLTIPASS_PARM [1, 5], Ev.read]) := by rfl
  refine ⟨h1, ?_, by rfl⟩
  rw [h1]
  intro hc
  simp at hc

/-! ### Keyboard layout (`select_keyboard_layout`, `get_keyboard_layout`) -/

/-- The reverse lookup of `get_keyboard_layout`: subtract
`KEYBD_ID_OFFSET` from the returned byte (in ℤ, as Python ints) and find
the first layout whose code matches, `none` if no match. -/
def decodeKeyboardLayout (b : Nat) : Option String :=
  (KEYBOARD_LAYOUT.find? (fun p => (p.2 : Int) = (b : Int) - (KEYBD_ID_OFFSET : Int))).map
    Prod.fst

/-- `select_keyboard_layout(layout)`: writes parameter `keyboard_layout`
to `KEYBD_ID_OFFSET + KEYBOARD_LAYOUT[layout]` (a missing layout name
raises `KeyError`). -/
def selectKeyboardLayout (layout : String) (r : TReply) :
    Except PyErr Unit × List Ev :=
  match (List.lookup layout KEYBOARD_LAYOUT : Option Nat) with
  | none => (.error .keyError, [])
  | some code => setParameter "keyboard_layout" (KEYBD_ID_OFFSET + code) r

/-- `get_keyboard_layout()`: reads parameter `keyboard_layout` and decodes
its first byte through `decodeKeyboardLayout`. -/
def getKeyboardLayout (r : TReply) : Except PyErr (Option String) × List Ev :=
  match getParameter "keyboard_layout" r with
  | (.error e, tr) => (.error e, tr)
  | (.ok res, tr) =>
    match pyGet res 0 with
    | .error e => (.error e, tr)
    | .ok b => (.ok (decodeKeyboardLayout b), tr)

/-- C8: keyboard-layout encode/decode round-trip.  For every layout name
in the table, `select_keyboard_layout` writes parameter value
`KEYBD_ID_OFFSET + code`, and decoding that byte returns the same name;
for every byte whose difference from the base offset matches no code in
the table, decoding returns `none`. -/
theorem keyboard_layout_roundtrip :
    (∀ name code, (name, code) ∈ KEYBOARD_LAYOUT →
      (∀ r, (selectKeyboardLayout name r).2 =
        [Ev.send SET_MOOLTIPASS_PARM [1, KEYBD_ID_OFFSET + code], Ev.read]) ∧
      decodeKeyboardLayout (KEYBD_ID_OFFSET + code) = some name) ∧
    (∀ b : Nat, (∀ p ∈ KEYBOARD_LAYOUT, (b : Int) - (KEYBD_ID_OFFSET : Int) ≠ (p.2 : Int)) →
      decodeKeyboardLayout b = none) := by
  constructor
  · intro name code hmem
    constructor
    · intro r
      have hlook : (List.lookup name KEYBOARD_LAYOUT : Option Nat) = some code := by
        fin_cases hmem <;> rfl
      have hparm : (List.lookup "keyboard_layout" PARAMETERS : Option Nat) = some 1 := by
        rfl
      simp only [selectKeyboardLayout, hlook, setParameter, hparm]
      cases readData r with
      | error e => rfl
      | ok res =>
        dsimp only
        cases pyGet res 0 with
        | error e => rfl
        | ok b =>
          dsimp only
          by_cases hb : b = SUCCESS <;> simp [hb]
    · fin_cases hmem <;> decide
  · intro b hb
    have : KEYBOARD_LAYOUT.find?
        (fun p => (p.2 : Int) = (b : Int) - (KEYBD_ID_OFFSET : Int)) = none := by
      rw [List.find?_eq_none]
      intro p hp
      simp only [decide_eq_true_eq]
      exact fun h => hb p hp (h ▸ rfl)
    simp [decodeKeyboardLayout, this]

/-- Witness for `keyboard_layout_roundtrip`: layout `FR_FR` (code 1)
round-trips through byte 147, and byte 0 (difference −146, no code)
decodes to `none`. -/
theorem keyboard_layout_roundtrip_witness :
    decodeKeyboardLayout (KEYBD_ID_OFFSET + 1) = some "FR_FR" ∧
      decodeKeyboardLayout 0 = none :=
  ⟨(keyboard_layout_roundtrip.1 "FR_FR" 1 (by decide)).2,
   keyboard_layout_roundtrip.2 0 (by decide)⟩

/-! ### Status (`get_status`) -/

/-- `get_status()`: sends `MOOLTIPASS_STATUS`; an `InterruptedError` from
the exchange is caught and replaced by `_res = [UNLOCKING]`; the first
reply byte is then looked up in the `STATUS` table (`KeyError` when
absent). -/
def getStatus (r : TReply) : Except PyErr StatusEntry × List Ev :=
  let tr := [Ev.send MOOLTIPASS_STATUS [], Ev.read]
  match readData r with
  | .error .interruptedError =>
    match (List.lookup UNLOCKING STATUS : Option StatusEntry) with
    | some st => (.ok st, tr)
    | none => (.error .keyError, tr)
  | .error e => (.error e, tr)
  | .ok res =>
    match pyGet res 0 with
    | .error e => (.error e, tr)
    | .ok b =>
      match (List.lookup b STATUS : Option StatusEntry) with
      | some st => (.ok st, tr)
      | none => (.error .keyError, tr)

/-- C9: `get_status` never signals `InterruptedError` to its caller, and
whenever the underlying status exchange raises `InterruptedError` it
returns the `STATUS` entry for `Unlocking` (code 3, text "unlocking"). -/
theorem getStatus_catches_interrupted (r : TReply) :
    (readData r = .error .interruptedError →
      (getStatus r).1 = .ok ⟨UNLOCKING, "unlocking"⟩) ∧
    (getStatus r).1 ≠ .error .interruptedError := by
  have hu : (List.lookup UNLOCKING STATUS : Option StatusEntry) =
      some ⟨UNLOCKING, "unlocking"⟩ := by rfl
  constructor
  · intro h
    simp [getStatus, h, hu]
  · simp only [getStatus]
    cases hrd : readData r with
    | error e =>
      cases e <;> simp [hu]
    | ok res =>
      simp only [pyGet]
      cases res[0]? with
      | none => simp
      | some b =>
        cases hlk : (List.lookup b STATUS : Option StatusEntry) <;> simp [hlk]

/-- Witness for `getStatus_catches_interrupted` on the unlocking-status
packet `[0x01, 0xB9, 0x03]`. -/
theorem getStatus_catches_interrupted_witness :
    (getStatus (.packet [0x01, 0xB9, 0x03])).1 = .ok ⟨UNLOCKING, "unlocking"⟩ :=
  (getStatus_catches_interrupted (.packet [0x01, 0xB9, 0x03])).1 (by rfl)

/-- C10: `get_status` is partial over the reply byte — whenever the
exchange returns a payload whose first byte is outside the `STATUS` table
keys `{0, 1, 3, 5, 9}`, the table lookup fails and `get_status` raises
`KeyError`. -/
theorem getStatus_unknown_code_keyError (r : TReply) (res : List Nat) (b : Nat)
    (hrd : readData r = .ok res) (hb : res[0]? = some b)
    (hmem : b ∉ [0, 1, 3, 5, 9]) :
    (getStatus r).1 = .error .keyError := by
  have h0 : b ≠ 0 := by intro h; exact hmem (by simp [h])
  have h1 : b ≠ 1 := by intro h; exact hmem (by simp [h])
  have h3 : b ≠ 3 := by intro h; exact hmem (by simp [h])
  have h5 : b ≠ 5 := by intro h; exact hmem (by simp [h])
  have h9 : b ≠ 9 := by intro h; exact hmem (by simp [h])
  have hlk : (List.lookup b STATUS : Option StatusEntry) = none := by
    simp [STATUS, List.lookup, beq_eq_false_iff_ne.mpr h0, beq_eq_false_iff_ne.mpr h1,
      beq_eq_false_iff_ne.mpr h3, beq_eq_false_iff_ne.mpr h5, beq_eq_false_iff_ne.mpr h9]
  simp [getStatus, hrd, pyGet, hb, hlk]

/-- Witness for `getStatus_unknown_code_keyError` on a status reply with
unknown code 7. -/
theorem getStatus_unknown_code_keyError_witness :
    (getStatus (.packet [0x01, 0xB9, 0x07])).1 = .error .keyError :=
  getStatus_unknown_code_keyError (.packet [0x01, 0xB9, 0x07]) [7] 7
    (by rfl) (by rfl) (by decide)

/-! ### `wait_status_unlocked` -/

/-- The polling loop of `wait_status_unlocked`: while `_res[0] != UNLOCKED`,
send `MOOLTIPASS_STATUS`; a `TimeoutError` or `InterruptedError` from the
exchange leaves `_res` unchanged and sleeps 1s; any other exception
propagates; a reply payload replaces `_res`.  `resp` is consumed at index
`k`; `fuel` bounds the modelled iterations (`none` = still looping). -/
def waitLoop (resp : Nat → TReply) (cur : List Nat) (k fuel : Nat) :
    Option (Except PyErr Unit × Nat × List Ev) :=
  match fuel with
  | 0 => none
  | fuel + 1 =>
    match pyGet cur 0 with
    | .error e => some (.error e, k, [])
    | .ok b =>
      if b = UNLOCKED then some (.ok (), k, [])
      else
        match readData (resp k) with
        | .error .timeoutError =>
          (waitLoop resp cur (k + 1) fuel).map
            (fun r => (r.1, r.2.1,
              Ev.send MOOLTIPASS_STATUS [] :: Ev.read :: Ev.sleepMs 1000 :: r.2.2))
        | .error .interruptedError =>
          (waitLoop resp cur (k + 1) fuel).map
            (fun r => (r.1, r.2.1,
              Ev.send MOOLTIPASS_STATUS [] :: Ev.read :: Ev.sleepMs 1000 :: r.2.2))
        | .error e => some (.error e, k + 1, [Ev.send MOOLTIPASS_STATUS [], Ev.read])
        | .ok res =>
          (waitLoop resp res (k + 1) fuel).map
            (fun r => (r.1, r.2.1, Ev.send MOOLTIPASS_STATUS [] :: Ev.read :: r.2.2))

/-- `wait_status_unlocked()` starting at reply index `k`: first
`_res = [self.get_status()['status']]` (one status exchange, whose
`Timeout`/`KeyError`/`IndexError` propagates), then the polling loop. -/
def waitStatusUnlockedFrom (resp : Nat → TReply) (k fuel : Nat) :
    Option (Except PyErr Unit × Nat × List Ev) :=
  match getStatus (resp k) with
  | (.error e, tr) => some (.error e, k + 1, tr)
  | (.ok entry, tr) =>
    (waitLoop resp [entry.status] (k + 1) fuel).map
      (fun r => (r.1, r.2.1, tr ++ r.2.2))

/-- Every `STATUS` table entry's `status` field equals its key. -/
theorem lookup_STATUS_status (b : Nat) (st : StatusEntry)
    (h : (List.lookup b STATUS : Option StatusEntry) = some st) : st.status = b := by
  by_cases h0 : b = 0
  · subst h0
    have h' : some (⟨NO_CARDS, "no smartcard"⟩ : StatusEntry) = some st := h
    injection h' with h'
    rw [← h']; rfl
  by_cases h1 : b = 1
  · subst h1
    have h' : some (⟨LOCKED, "locked"⟩ : StatusEntry) = some st := h
    injection h' with h'
    rw [← h']; rfl
  by_cases h3 : b = 3
  · subst h3
    have h' : some (⟨UNLOCKING, "unlocking"⟩ : StatusEntry) = some st := h
    injection h' with h'
    rw [← h']; rfl
  by_cases h5 : b = 5
  · subst h5
    have h' : some (⟨UNLOCKED, "unlocked"⟩ : StatusEntry) = some st := h
    injection h' with h'
    rw [← h']; rfl
  by_cases h9 : b = 9
  · subst h9
    have h' : some (⟨INVALID_SMARTCARD, "unknown smartcard"⟩ : StatusEntry) = some st := h
    injection h' with h'
    rw [← h']; rfl
  have hlk : (List.lookup b STATUS : Option StatusEntry) = none := by
    simp [STATUS, List.lookup, beq_eq_false_iff_ne.mpr h0, beq_eq_false_iff_ne.mpr h1,
      beq_eq_false_iff_ne.mpr h3, beq_eq_false_iff_ne.mpr h5, beq_eq_false_iff_ne.mpr h9]
  rw [hlk] at h
  exact Option.noConfusion h

/-- The status exchange always consists of one send and one read. -/
theorem getStatus_trace (r : TReply) :
    (getStatus r).2 = [Ev.send MOOLTIPASS_STATUS [], Ev.read] := by
  unfold getStatus
  cases readData r with
  | error e => cases e <;> rfl
  | ok res =>
    dsimp only
    cases pyGet res 0 with
    | error e => rfl
    | ok b =>
      dsimp only
      cases (List.lookup b STATUS : Option StatusEntry) <;> rfl

/-- If the polling loop terminates normally, either the incoming `_res`
already reported `Unlocked` or some consumed reply decoded to a payload
whose first byte is `Unlocked`; and the loop only sends
`MOOLTIPASS_STATUS`, reads, and sleeps exactly 1000 ms. -/
theorem waitLoop_ok (resp : Nat → TReply) :
    ∀ fuel cur k k' tr, waitLoop resp cur k fuel = some (.ok (), k', tr) →
      (cur[0]? = some UNLOCKED ∨
        ∃ j res, readData (resp j) = .ok res ∧ res[0]? = some UNLOCKED) ∧
      ∀ e ∈ tr, e = Ev.send MOOLTIPASS_STATUS [] ∨ e = Ev.read ∨ e = Ev.sleepMs 1000 := by
  intro fuel
  induction fuel with
  | zero =>
    intro cur k k' tr h
    exact absurd h (by simp [waitLoop])
  | succ fuel ih =>
    intro cur k k' tr h
    rw [waitLoop] at h
    cases hg : pyGet cur 0 with
    | error e =>
      rw [hg] at h
      simp at h
    | ok b =>
      rw [hg] at h
      dsimp only at h
      by_cases hb : b = UNLOCKED
      · rw [if_pos hb] at h
        simp only [Option.some.injEq, Prod.mk.injEq] at h
        refine ⟨Or.inl ?_, ?_⟩
        · have hc0 : cur[0]? = some b := by
            unfold pyGet at hg
            cases hc : cur[0]? with
            | none => rw [hc] at hg; exact absurd hg (by simp)
            | some v => rw [hc] at hg; simp at hg; rw [hg]
          rw [hc0, hb]
        · rw [← h.2.2]
          intro e he
          exact absurd he (List.not_mem_nil e)
      · rw [if_neg hb] at h
        cases hrd : readData (resp k) with
        | error e =>
          rw [hrd] at h
          cases e with
          | timeoutError =>
            dsimp only at h
            rw [Option.map_eq_some'] at h
            obtain ⟨⟨r1, r2, r3⟩, hw, hf⟩ := h
            simp only [Prod.mk.injEq] at hf
            obtain ⟨hf1, hf2, hf3⟩ := hf
            rw [hf1] at hw
            obtain ⟨hd, htr⟩ := ih cur (k + 1) r2 r3 hw
            refine ⟨hd, ?_⟩
            rw [← hf3]
            intro e he
            simp only [List.mem_cons] at he
            rcases he with he | he | he | he
            · exact Or.inl he
            · exact Or.inr (Or.inl he)
            · exact Or.inr (Or.inr he)
            · exact htr e he
          | interruptedError =>
            dsimp only at h
            rw [Option.map_eq_some'] at h
            obtain ⟨⟨r1, r2, r3⟩, hw, hf⟩ := h
            simp only [Prod.mk.injEq] at hf
            obtain ⟨hf1, hf2, hf3⟩ := hf
            rw [hf1] at hw
            obtain ⟨hd, htr⟩ := ih cur (k + 1) r2 r3 hw
            refine ⟨hd, ?_⟩
            rw [← hf3]
            intro e he
            simp only [List.mem_cons] at he
            rcases he with he | he | he | he
            · exact Or.inl he
            · exact Or.inr (Or.inl he)
            · exact Or.inr (Or.inr he)
            · exact htr e he
          | indexError => simp at h
          | keyError => simp at h
          | valueError => simp at h
          | typeError => simp at h
          | ioError => simp at h
        | ok res =>
          rw [hrd] at h
          dsimp only at h
          rw [Option.map_eq_some'] at h
          obtain ⟨⟨r1, r2, r3⟩, hw, hf⟩ := h
          simp only [Prod.mk.injEq] at hf
          obtain ⟨hf1, hf2, hf3⟩ := hf
          rw [hf1] at hw
          obtain ⟨hd, htr⟩ := ih res (k + 1) r2 r3 hw
          constructor
          · rcases hd with hd | hd
            · exact Or.inr ⟨k, res, hrd, hd⟩
            · exact Or.inr hd
          · rw [← hf3]
            intro e he
            simp only [List.mem_cons] at he
            rcases he with he | he | he
            · exact Or.inl he
            · exact Or.inr (Or.inl he)
            · exact htr e he

/-- C7: `wait_status_unlocked` never returns while the device is not
`Unlocked`: whenever it returns normally, some consumed reply decoded to a
status payload reporting `Unlocked`, and until then it only sent
`MOOLTIPASS_STATUS` commands, read, and slept exactly 1 second at a
time. -/
theorem wait_status_unlocked_only_unlocked (resp : Nat → TReply)
    (k0 fuel k' : Nat) (tr : List Ev)
    (h : waitStatusUnlockedFrom resp k0 fuel = some (.ok (), k', tr)) :
    (∃ j res, readData (resp j) = .ok res ∧ res[0]? = some UNLOCKED) ∧
      ∀ e ∈ tr, e = Ev.send MOOLTIPASS_STATUS [] ∨ e = Ev.read ∨ e = Ev.sleepMs 1000 := by
  unfold waitStatusUnlockedFrom at h
  rcases hgs : getStatus (resp k0) with ⟨gres, gtr⟩
  rw [hgs] at h
  have hgtr : gtr = [Ev.send MOOLTIPASS_STATUS [], Ev.read] := by
    have hg2 := getStatus_trace (resp k0)
    rw [hgs] at hg2
    exact hg2
  cases gres with
  | error e => simp at h
  | ok entry =>
    dsimp only at h
    rw [Option.map_eq_some'] at h
    obtain ⟨⟨r1, r2, r3⟩, hw, hf⟩ := h
    simp only [Prod.mk.injEq] at hf
    obtain ⟨hf1, hf2, hf3⟩ := hf
    rw [hf1] at hw
    obtain ⟨hd, htr⟩ := waitLoop_ok resp fuel [entry.status] (k0 + 1) r2 r3 hw
    constructor
    · rcases hd with hd | hd
      · -- the initial get_status entry reported Unlocked
        simp only [List.getElem?_cons_zero, Option.some.injEq] at hd
        unfold getStatus at hgs
        cases hrd : readData (resp k0) with
        | error e =>
          rw [hrd] at hgs
          cases e with
          | interruptedError =>
            have h' : ((Except.ok (⟨UNLOCKING, "unlocking"⟩ : StatusEntry),
                [Ev.send MOOLTIPASS_STATUS [], Ev.read]) :
                Except PyErr StatusEntry × List Ev) = (.ok entry, gtr) := hgs
            have hent : (⟨UNLOCKING, "unlocking"⟩ : StatusEntry) = entry := by
              have hcomp := congrArg Prod.fst h'
              simp only [Except.ok.injEq] at hcomp
              exact hcomp
            rw [← hent] at hd
            exact absurd hd (by decide)
          | timeoutError => exact absurd hgs (by simp)
          | indexError => exact absurd hgs (by simp)
          | keyError => exact absurd hgs (by simp)
          | valueError => exact absurd hgs (by simp)
          | typeError => exact absurd hgs (by simp)
          | ioError => exact absurd hgs (by simp)
        | ok res =>
          rw [hrd] at hgs
          dsimp only at hgs
          cases hpg : pyGet res 0 with
          | error e => rw [hpg] at hgs; simp at hgs
          | ok b =>
            rw [hpg] at hgs
            dsimp only at hgs
            cases hlk : (List.lookup b STATUS : Option StatusEntry) with
            | none => rw [hlk] at hgs; simp at hgs
            | some st =>
              rw [hlk] at hgs
              simp only [Prod.mk.injEq, Except.ok.injEq] at hgs
              have hb : b = UNLOCKED := by
                have hss := lookup_STATUS_status b st hlk
                rw [hgs.1] at hss
                rw [← hss, hd]
              refine ⟨k0, res, hrd, ?_⟩
              unfold pyGet at hpg
              cases hc : res[0]? with
              | none => rw [hc] at hpg; exact absurd hpg (by simp)
              | some v =>
                rw [hc] at hpg
                simp only [Except.ok.injEq] at hpg
                rw [hpg, hb]
      · exact hd
    · rw [← hf3, hgtr]
      intro e he
      simp only [List.mem_cons, List.mem_append, List.not_mem_nil, or_false] at he
      rcases he with (he | he) | he
      · exact Or.inl he
      · exact Or.inr (Or.inl he)
      · exact htr e he

/-- A device that always answers with an `Unlocked` status packet. -/
def respAllUnlocked : Nat → TReply := fun _ => TReply.packet [1, 0xB9, 5]

/-- Witness for `wait_status_unlocked_only_unlocked` on `respAllUnlocked`. -/
theorem wait_status_unlocked_only_unlocked_witness :
    ∃ j res, readData (respAllUnlocked j) = .ok res ∧ res[0]? = some UNLOCKED :=
  (wait_status_unlocked_only_unlocked respAllUnlocked 0 1 1
    [Ev.send MOOLTIPASS_STATUS [], Ev.read] (by rfl)).1

/-! ### `_ping` and `__enter__` (connection handshake) -/

/-- `_max_reties` in `_ping` (sic). -/
def maxReties : Nat := 3

/-- The short-circuiting echo test
`_res[0] == _data[0] and _res[1] == _data[1]` on a decoded ping reply. -/
def pingEcho (b0 b1 : Nat) (res : List Nat) : Except PyErr Bool :=
  match pyGet res 0 with
  | .error e => .error e
  | .ok x =>
    if x = b0 then
      match pyGet res 1 with
      | .error e => .error e
      | .ok y => .ok (y = b1)
    else .ok false

/-- The `while` condition of `_ping`:
`(_res is None) or not (echo)`. -/
def pingCond (b0 b1 : Nat) (res : Option (List Nat)) : Except PyErr Bool :=
  match res with
  | none => .ok true
  | some p =>
    match pingEcho b0 b1 p with
    | .error e => .error e
    | .ok e => .ok (!e)

/-- The retry loop of `_ping`: while the current `_res` does not echo the
ping bytes, bail out with `False` once `_retries > _max_reties`, else
sleep 200 ms, re-read (`TimeoutError` sets `_res = None`; other
exceptions propagate) and increment `_retries`.  Returns (result, next
reply index, events). -/
def pingLoop (resp : Nat → TReply) (b0 b1 : Nat) (res : Option (List Nat))
    (k retries : Nat) : Except PyErr Bool × Nat × List Ev :=
  match pingCond b0 b1 res with
  | .error e => (.error e, k, [])
  | .ok false => (.ok true, k, [])
  | .ok true =>
    if h : retries > maxReties then (.ok false, k, [])
    else
      match readData (resp k) with
      | .error .timeoutError =>
        let r := pingLoop resp b0 b1 none (k + 1) (retries + 1)
        (r.1, r.2.1, Ev.sleepMs 200 :: Ev.read :: r.2.2)
      | .error e => (.error e, k + 1, [Ev.sleepMs 200, Ev.read])
      | .ok p =>
        let r := pingLoop resp b0 b1 (some p) (k + 1) (retries + 1)
        (r.1, r.2.1, Ev.sleepMs 200 :: Ev.read :: r.2.2)
termination_by maxReties + 1 - retries
decreasing_by
  all_goals unfold maxReties at h ⊢
  all_goals omega

/-- `_ping()`: send `PING` with the two random bytes `b0 b1` and read the
reply; an `InterruptedError` triggers `wait_status_unlocked()` followed by
one re-send, then the retry loop runs.  (The `usb.core.USBError` handler
is dead code in this model: `hid.read` converts USB errors to
`TimeoutError` and `hid.write` swallows them.) -/
def ping (resp : Nat → TReply) (b0 b1 fuel : Nat) :
    Option (Except PyErr Bool × Nat × List Ev) :=
  let tr0 := [Ev.send PING [b0, b1], Ev.read]
  match readData (resp 0) with
  | .error .interruptedError =>
    match waitStatusUnlockedFrom resp 1 fuel with
    | none => none
    | some (.error e, k, trw) => some (.error e, k, tr0 ++ trw)
    | some (.ok _, k, trw) =>
      match readData (resp k) with
      | .error e => some (.error e, k + 1, tr0 ++ trw ++ tr0)
      | .ok p =>
        let r := pingLoop resp b0 b1 (some p) (k + 1) 0
        some (r.1, r.2.1, tr0 ++ trw ++ tr0 ++ r.2.2)
  | .error e => some (.error e, 1, tr0)
  | .ok p =>
    let r := pingLoop resp b0 b1 (some p) 1 0
    some (r.1, r.2.1, tr0 ++ r.2.2)

/-- `__enter__`: sleep 0.5 s, run `_ping` (raising
`IOError("Could not connect to the Mooltipass")` when it returns `False`),
then issue a `VERSION` exchange and log `_res[0]`. -/
def connect (resp : Nat → TReply) (b0 b1 fuel : Nat) :
    Option (Except PyErr Unit × Nat × List Ev) :=
  match ping resp b0 b1 fuel with
  | none => none
  | some (.error e, k, tr) => some (.error e, k, Ev.sleepMs 500 :: tr)
  | some (.ok false, k, tr) => some (.error .ioError, k, Ev.sleepMs 500 :: tr)
  | some (.ok true, k, tr) =>
    match readData (resp k) with
    | .error e => some (.error e, k + 1, Ev.sleepMs 500 :: tr ++ [Ev.send VERSION [], Ev.read])
    | .ok v =>
      match pyGet v 0 with
      | .error e => some (.error e, k + 1, Ev.sleepMs 500 :: tr ++ [Ev.send VERSION [], Ev.read])
      | .ok _ => some (.ok (), k + 1, Ev.sleepMs 500 :: tr ++ [Ev.send VERSION [], Ev.read])

/-- Read attempts in a trace. -/
def isRead : Ev → Bool
  | .read => true
  | _ => false

/-- `readsSeparatedAux ms ok tr = true` iff every `read` in `tr` is
preceded (since the previous `read`) by a sleep of at least `ms`
milliseconds; `ok` records whether such a sleep was already seen. -/
def readsSeparatedAux (ms : Nat) : Bool → List Ev → Bool
  | _, [] => true
  | ok, Ev.read :: t => ok && readsSeparatedAux ms false t
  | ok, Ev.sleepMs n :: t => readsSeparatedAux ms (ok || decide (ms ≤ n)) t
  | ok, Ev.send _ _ :: t => readsSeparatedAux ms ok t

/-- Consecutive read attempts in `l` are separated by a sleep of at least
`ms` milliseconds. -/
def readsSeparated (ms : Nat) (l : List Ev) : Bool := readsSeparatedAux ms true l

/-- One non-echoing-step unfolding of `pingLoop`. -/
theorem pingLoop_step (resp : Nat → TReply) (b0 b1 : Nat)
    (res : Option (List Nat)) (q : List Nat) (k retries : Nat)
    (hr : ¬retries > maxReties) (hcond : pingCond b0 b1 res = .ok true)
    (hrd : readData (resp k) = .ok q) :
    pingLoop resp b0 b1 res k retries =
      ((pingLoop resp b0 b1 (some q) (k + 1) (retries + 1)).1,
       (pingLoop resp b0 b1 (some q) (k + 1) (retries + 1)).2.1,
       Ev.sleepMs 200 :: Ev.read ::
         (pingLoop resp b0 b1 (some q) (k + 1) (retries + 1)).2.2) := by
  rw [pingLoop, hcond]
  dsimp only
  rw [dif_neg hr, hrd]

/-- The bail-out unfolding of `pingLoop`. -/
theorem pingLoop_stop (resp : Nat → TReply) (b0 b1 : Nat)
    (res : Option (List Nat)) (k retries : Nat)
    (hr : retries > maxReties) (hcond : pingCond b0 b1 res = .ok true) :
    pingLoop resp b0 b1 res k retries = (.ok false, k, []) := by
  rw [pingLoop, hcond]
  dsimp only
  rw [dif_pos hr]

/-- On a transport that always yields a decoded, non-echoing reply, the
connection attempt fails with `IOError` after exactly five read attempts
(the initial one plus four retries), each retry preceded by a 200 ms
sleep. -/
theorem connect_no_echo (resp : Nat → TReply) (p : Nat → List Nat)
    (b0 b1 fuel : Nat)
    (hresp : ∀ j, readData (resp j) = .ok (p j))
    (hecho : ∀ j, pingEcho b0 b1 (p j) = .ok false) :
    connect resp b0 b1 fuel = some (.error .ioError, 5,
      [Ev.sleepMs 500, Ev.send PING [b0, b1], Ev.read,
       Ev.sleepMs 200, Ev.read, Ev.sleepMs 200, Ev.read,
       Ev.sleepMs 200, Ev.read, Ev.sleepMs 200, Ev.read]) := by
  have hcond : ∀ j, pingCond b0 b1 (some (p j)) = .ok true := by
    intro j
    simp [pingCond, hecho j]
  have h4 : pingLoop resp b0 b1 (some (p 4)) 5 4 = (.ok false, 5, []) :=
    pingLoop_stop resp b0 b1 (some (p 4)) 5 4 (by unfold maxReties; omega) (hcond 4)
  have h3 : pingLoop resp b0 b1 (some (p 3)) 4 3 =
      (.ok false, 5, [Ev.sleepMs 200, Ev.read]) := by
    rw [pingLoop_step resp b0 b1 (some (p 3)) (p 4) 4 3
      (by unfold maxReties; omega) (hcond 3) (hresp 4), h4]
  have h2 : pingLoop resp b0 b1 (some (p 2)) 3 2 =
      (.ok false, 5, [Ev.sleepMs 200, Ev.read, Ev.sleepMs 200, Ev.read]) := by
    rw [pingLoop_step resp b0 b1 (some (p 2)) (p 3) 3 2
      (by unfold maxReties; omega) (hcond 2) (hresp 3), h3]
  have h1 : pingLoop resp b0 b1 (some (p 1)) 2 1 =
      (.ok false, 5, [Ev.sleepMs 200, Ev.read, Ev.sleepMs 200, Ev.read,
        Ev.sleepMs 200, Ev.read]) := by
    rw [pingLoop_step resp b0 b1 (some (p 1)) (p 2) 2 1
      (by unfold maxReties; omega) (hcond 1) (hresp 2), h2]
  have h0 : pingLoop resp b0 b1 (some (p 0)) 1 0 =
      (.ok false, 5, [Ev.sleepMs 200, Ev.read, Ev.sleepMs 200, Ev.read,
        Ev.sleepMs 200, Ev.read, Ev.sleepMs 200, Ev.read]) := by
    rw [pingLoop_step resp b0 b1 (some (p 0)) (p 1) 1 0
      (by unfold maxReties; omega) (hcond 0) (hresp 1), h1]
  have hping : ping resp b0 b1 fuel = some (.ok false, 5,
      [Ev.send PING [b0, b1], Ev.read, Ev.sleepMs 200, Ev.read,
       Ev.sleepMs 200, Ev.read, Ev.sleepMs 200, Ev.read,
       Ev.sleepMs 200, Ev.read]) := by
    unfold ping
    rw [hresp 0]
    dsimp only
    rw [h0]
    rfl
  unfold connect
  rw [hping]

/-- The event trace of a failed handshake: the settle sleep, the initial
ping exchange, and four sleep-200ms-then-re-read retries. -/
def connectFailTrace (b0 b1 : Nat) : List Ev :=
  [Ev.sleepMs 500, Ev.send PING [b0, b1], Ev.read,
   Ev.sleepMs 200, Ev.read, Ev.sleepMs 200, Ev.read,
   Ev.sleepMs 200, Ev.read, Ev.sleepMs 200, Ev.read]

/-- C4 (amended): for every transport whose responses always decode but
never echo the two random ping bytes, connecting fails with the
handshake-failure `IOError` after exactly 5 read attempts — 1 initial
attempt plus 4 retries (not 3: `_retries` is incremented after the read
and compared with `>`), with a 200 ms sleep between consecutive
attempts. -/
theorem connect_handshake_retry_bound (resp : Nat → TReply) (p : Nat → List Nat)
    (b0 b1 fuel : Nat)
    (hresp : ∀ j, readData (resp j) = .ok (p j))
    (hecho : ∀ j, pingEcho b0 b1 (p j) = .ok false) :
    connect resp b0 b1 fuel = some (.error .ioError, 5, connectFailTrace b0 b1) ∧
      (connectFailTrace b0 b1).countP (fun e => isRead e) = 5 ∧
      readsSeparated 200 (connectFailTrace b0 b1) = true :=
  ⟨connect_no_echo resp p b0 b1 fuel hresp hecho, rfl, rfl⟩

/-- A transport that always replies with a decodable packet that does not
echo ping bytes `(1, 2)`. -/
def respNoEcho : Nat → TReply := fun _ => TReply.packet [2, 0xA1, 9, 9]

/-- C4 counterexample to the claim as stated: on `respNoEcho` the connect
handshake performs 5 read attempts before failing, not the claimed 4. -/
theorem connect_four_attempts_cex :
    connect respNoEcho 1 2 0 = some (.error .ioError, 5, connectFailTrace 1 2) ∧
      (connectFailTrace 1 2).countP (fun e => isRead e) = 5 ∧
      ¬(connectFailTrace 1 2).countP (fun e => isRead e) = 4 := by
  refine ⟨?_, by rfl, by decide⟩
  exact connect_no_echo respNoEcho (fun _ => [9, 9]) 1 2 0 (fun j => rfl) (fun j => rfl)

/-- Witness for `connect_handshake_retry_bound` on `respNoEcho` with ping
bytes `(1, 2)`. -/
theorem connect_handshake_retry_bound_witness :
    connect respNoEcho 1 2 0 = some (.error .ioError, 5, connectFailTrace 1 2) ∧
      (connectFailTrace 1 2).countP (fun e => isRead e) = 5 ∧
      readsSeparated 200 (connectFailTrace 1 2) = true :=
  connect_handshake_retry_bound respNoEcho (fun _ => [9, 9]) 1 2 0
    (fun _ => rfl) (fun _ => rfl)

/-! ### `_read_data(retry_on_locked=True)` and `_data_management_mode` -/

/-- The `retry_on_locked` loop of `_read_data`: while the current raw
packet is an `Unlocking` status packet, re-read (a `TimeoutError` sleeps
2 s and leaves the packet unchanged); on exit, return the payload
slice. -/
def rlLoop (resp : Nat → TReply) (cur : List Nat) (k fuel : Nat) :
    Option (Except PyErr (List Nat) × Nat × List Ev) :=
  match fuel with
  | 0 => none
  | fuel + 1 =>
    match isUnlockingStatus cur with
    | .error e => some (.error e, k, [])
    | .ok false => some (sliceData cur, k, [])
    | .ok true =>
      match resp k with
      | .timeout =>
        (rlLoop resp cur (k + 1) fuel).map
          (fun r => (r.1, r.2.1, Ev.read :: Ev.sleepMs 2000 :: r.2.2))
      | .packet d =>
        (rlLoop resp d (k + 1) fuel).map
          (fun r => (r.1, r.2.1, Ev.read :: r.2.2))

/-- `_read_data(retry_on_locked=True)`: the first read is outside the
`try`, so its timeout propagates as `TimeoutError`; then the retry
loop. -/
def readDataRL (resp : Nat → TReply) (k fuel : Nat) :
    Option (Except PyErr (List Nat) × Nat × List Ev) :=
  match resp k with
  | .timeout => some (.error .timeoutError, k + 1, [Ev.read])
  | .packet d =>
    (rlLoop resp d (k + 1) fuel).map (fun r => (r.1, r.2.1, Ev.read :: r.2.2))

/-- Outcome of the `START_MEMORYMGMT` entry loop, mirroring the final
value of `_success`: `entered` (`True`), `declined`
(`None`, the `InterruptedError("User refused management mode")` raise),
`err` (any other exception, `_success` still `False`). -/
inductive DmmEntry
  | entered
  | declined
  | err (e : PyErr)
deriving DecidableEq

/-- The entry loop of `_data_management_mode`: repeatedly send
`START_MEMORYMGMT` (with `retry_on_locked` and a 2 s timeout), sleeping
1 s on `TimeoutError`; `_res[0] != SUCCESS` declines, `_res[0] == SUCCESS`
enters. -/
def dmmEntryLoop (resp : Nat → TReply) (k fuel : Nat) :
    Option (DmmEntry × Nat × List Ev) :=
  match fuel with
  | 0 => none
  | fuel + 1 =>
    match readDataRL resp k fuel with
    | none => none
    | some (.error .timeoutError, k', tr) =>
      (dmmEntryLoop resp k' fuel).map
        (fun r => (r.1, r.2.1,
          (Ev.send START_MEMORYMGMT [] :: tr ++ [Ev.sleepMs 1000]) ++ r.2.2))
    | some (.error e, k', tr) =>
      some (.err e, k', Ev.send START_MEMORYMGMT [] :: tr)
    | some (.ok res, k', tr) =>
      match pyGet res 0 with
      | .error e => some (.err e, k', Ev.send START_MEMORYMGMT [] :: tr)
      | .ok b =>
        if b = SUCCESS then some (.entered, k', Ev.send START_MEMORYMGMT [] :: tr)
        else some (.declined, k', Ev.send START_MEMORYMGMT [] :: tr)

/-- The `finally` block of `_data_management_mode`: when `_success` is not
`None` (`sendEnd`), send `END_MEMORYMGMT` and read its reply (whose own
exception would replace the in-flight result); otherwise pass the result
through untouched. -/
def dmmFinally {α : Type} (resp : Nat → TReply) (k : Nat) (res : Except PyErr α)
    (sendEnd : Bool) (tr : List Ev) : Except PyErr α × Nat × List Ev :=
  if sendEnd then
    match readData (resp k) with
    | .error e => (.error e, k + 1, tr ++ [Ev.send END_MEMORYMGMT [], Ev.read])
    | .ok _ => (res, k + 1, tr ++ [Ev.send END_MEMORYMGMT [], Ev.read])
  else (res, k, tr)

/-- `_data_management_mode` running `body` inside the scope:
`wait_status_unlocked()` (an exception there reaches `finally` with
`_success = False`, which still sends the exit command), then the entry
loop, then the body, with the `finally` close-out. -/
def dataManagementMode {α : Type} (resp : Nat → TReply) (fuel : Nat)
    (body : Nat → Except PyErr α × Nat × List Ev) :
    Option (Except PyErr α × Nat × List Ev) :=
  match waitStatusUnlockedFrom resp 0 fuel with
  | none => none
  | some (.error e, k, trw) => some (dmmFinally resp k (.error e) true trw)
  | some (.ok _, k, trw) =>
    match dmmEntryLoop resp k fuel with
    | none => none
    | some (.err e, k', tre) => some (dmmFinally resp k' (.error e) true (trw ++ tre))
    | some (.declined, k', tre) =>
      some (dmmFinally resp k' (.error .interruptedError) false (trw ++ tre))
    | some (.entered, k', tre) =>
      let r := body k'
      some (dmmFinally resp r.2.1 r.1 true (trw ++ tre ++ r.2.2))

/-- `END_MEMORYMGMT` command writes in a trace. -/
def isEndSend : Ev → Bool
  | .send c _ => c = END_MEMORYMGMT
  | _ => false

/-- Number of `END_MEMORYMGMT` commands sent in a trace. -/
def countEnd (tr : List Ev) : Nat := tr.countP (fun e => isEndSend e)

/-! ### `get_favorites_list` -/

/-- `"".join(chr(c) for c in buf[offset:]).split(chr(0))[0]`: the bytes
from `offset` up to (excluding) the first NUL. -/
def extractString (buf : List Nat) (offset : Nat) : List Nat :=
  (buf.drop offset).takeWhile (fun c => c != 0)

/-- One flash-node read: `_send_command(READ_FLASH_NODE, addr)` plus two
further `_read_data()` calls, the three payload slices concatenated, and
the string extracted at `offset`. -/
def readNode (resp : Nat → TReply) (k : Nat) (addr : List Nat) (offset : Nat) :
    Except PyErr (List Nat) × Nat × List Ev :=
  let tr0 := [Ev.send READ_FLASH_NODE addr, Ev.read]
  match readData (resp k) with
  | .error e => (.error e, k + 1, tr0)
  | .ok d1 =>
    match readData (resp (k + 1)) with
    | .error e => (.error e, k + 2, tr0 ++ [Ev.read])
    | .ok d2 =>
      match readData (resp (k + 2)) with
      | .error e => (.error e, k + 3, tr0 ++ [Ev.read, Ev.read])
      | .ok d3 =>
        (.ok (extractString (d1 ++ d2 ++ d3) offset), k + 3, tr0 ++ [Ev.read, Ev.read])

/-- The populated-slot branch of the favorites loop: read the parent node
at `_fav_data[0:2]` (context at `SERVICE_INDEX`) and the child node at
`_fav_data[2:4]` (login at `LOGIN_INDEX`). -/
def favSlotRead (resp : Nat → TReply) (k : Nat) (fav : List Nat) :
    Except PyErr (List Nat × List Nat) × Nat × List Ev :=
  match readNode resp k (fav.take 2) SERVICE_INDEX with
  | (.error e, k', tr) => (.error e, k', tr)
  | (.ok ctx, k', tr) =>
    match readNode resp k' ((fav.drop 2).take 2) LOGIN_INDEX with
    | (.error e, k2, tr2) => (.error e, k2, tr ++ tr2)
    | (.ok lg, k2, tr2) => (.ok (ctx, lg), k2, tr ++ tr2)

/-- Wrapper tagging the populated-slot result as `some` and prefixing the
`GET_FAVORITE` exchange events. -/
def favSlotFull (resp : Nat → TReply) (k : Nat) (fav : List Nat) (tr0 : List Ev) :
    Except PyErr (Option (List Nat × List Nat)) × Nat × List Ev :=
  match favSlotRead resp k fav with
  | (.error e, k', tr) => (.error e, k', tr0 ++ tr)
  | (.ok cl, k', tr) => (.ok (some cl), k', tr0 ++ tr)

/-- One iteration of the favorites loop for slot `s`: request
`GET_FAVORITE(s)`; the slot is empty (`none`) iff
`_fav_data[0] == 0 and _fav_data[1] == 0` (short-circuit), else the two
node reads run. -/
def favSlot (resp : Nat → TReply) (s k : Nat) :
    Except PyErr (Option (List Nat × List Nat)) × Nat × List Ev :=
  let tr0 := [Ev.send GET_FAVORITE [s], Ev.read]
  match readData (resp k) with
  | .error e => (.error e, k + 1, tr0)
  | .ok fav =>
    match pyGet fav 0 with
    | .error e => (.error e, k + 1, tr0)
    | .ok b0 =>
      if b0 = 0 then
        match pyGet fav 1 with
        | .error e => (.error e, k + 1, tr0)
        | .ok b1 =>
          if b1 = 0 then (.ok none, k + 1, tr0)
          else favSlotFull resp (k + 1) fav tr0
      else favSlotFull resp (k + 1) fav tr0

/-- The `for _fav_count in range(14)` loop body folded over `slots`,
accumulating the `{slot: (context, login)}` mapping in insertion order. -/
def favLoop (resp : Nat → TReply) (slots : List Nat) (k : Nat) :
    Except PyErr (List (Nat × List Nat × List Nat)) × Nat × List Ev :=
  match slots with
  | [] => (.ok [], k, [])
  | s :: rest =>
    match favSlot resp s k with
    | (.error e, k', tr) => (.error e, k', tr)
    | (.ok none, k', tr) =>
      match favLoop resp rest k' with
      | (.error e, k2, tr2) => (.error e, k2, tr ++ tr2)
      | (.ok m, k2, tr2) => (.ok m, k2, tr ++ tr2)
    | (.ok (some cl), k', tr) =>
      match favLoop resp rest k' with
      | (.error e, k2, tr2) => (.error e, k2, tr ++ tr2)
      | (.ok m, k2, tr2) => (.ok ((s, cl) :: m), k2, tr ++ tr2)

/-- `get_favorites_list()`: the 14-slot favorites loop inside the
memory-management scope. -/
def getFavoritesList (resp : Nat → TReply) (fuel : Nat) :
    Option (Except PyErr (List (Nat × List Nat × List Nat)) × Nat × List Ev) :=
  dataManagementMode resp fuel (fun k => favLoop resp (List.range 14) k)

/-! ### Trace lemmas for the memory-management scope -/

theorem countEnd_append (a b : List Ev) :
    countEnd (a ++ b) = countEnd a + countEnd b :=
  List.countP_append _ _ _

theorem countEnd_cons (e : Ev) (t : List Ev) :
    countEnd (e :: t) = countEnd t + (if isEndSend e then 1 else 0) :=
  List.countP_cons _ _ _

/-- A successful `wait_status_unlocked` sends no `END_MEMORYMGMT`. -/
theorem waitFrom_ok_no_end (resp : Nat → TReply) (k0 fuel k' : Nat) (tr : List Ev)
    (h : waitStatusUnlockedFrom resp k0 fuel = some (.ok (), k', tr)) :
    countEnd tr = 0 := by
  unfold waitStatusUnlockedFrom at h
  rcases hgs : getStatus (resp k0) with ⟨gres, gtr⟩
  rw [hgs] at h
  have hgtr : gtr = [Ev.send MOOLTIPASS_STATUS [], Ev.read] := by
    have hg2 := getStatus_trace (resp k0)
    rw [hgs] at hg2
    exact hg2
  cases gres with
  | error e => simp at h
  | ok entry =>
    dsimp only at h
    rw [Option.map_eq_some'] at h
    obtain ⟨⟨r1, r2, r3⟩, hw, hf⟩ := h
    simp only [Prod.mk.injEq] at hf
    obtain ⟨hf1, hf2, hf3⟩ := hf
    rw [hf1] at hw
    obtain ⟨-, htr⟩ := waitLoop_ok resp fuel [entry.status] (k0 + 1) r2 r3 hw
    rw [← hf3, hgtr]
    have h3 : countEnd r3 = 0 := by
      unfold countEnd
      rw [List.countP_eq_zero]
      intro e he
      rcases htr e he with he' | he' | he' <;> subst he' <;> decide
    rw [countEnd_append, h3]
    rfl

/-- The `retry_on_locked` read loop sends no `END_MEMORYMGMT`. -/
theorem rlLoop_no_end (resp : Nat → TReply) :
    ∀ fuel cur k r k' tr, rlLoop resp cur k fuel = some (r, k', tr) →
      countEnd tr = 0 := by
  intro fuel
  induction fuel with
  | zero =>
    intro cur k r k' tr h
    exact absurd h (by simp [rlLoop])
  | succ fuel ih =>
    intro cur k r k' tr h
    rw [rlLoop] at h
    cases hu : isUnlockingStatus cur with
    | error e =>
      rw [hu] at h
      simp only [Option.some.injEq, Prod.mk.injEq] at h
      rw [← h.2.2]
      rfl
    | ok b =>
      rw [hu] at h
      cases b with
      | false =>
        dsimp only at h
        simp only [Option.some.injEq, Prod.mk.injEq] at h
        rw [← h.2.2]
        rfl
      | true =>
        dsimp only at h
        cases hresp : resp k with
        | timeout =>
          rw [hresp] at h
          dsimp only at h
          rw [Option.map_eq_some'] at h
          obtain ⟨⟨a1, a2, a3⟩, hw, hf⟩ := h
          simp only [Prod.mk.injEq] at hf
          rw [← hf.2.2]
          have ha := ih cur (k + 1) a1 a2 a3 hw
          simp [countEnd_cons, ha, isEndSend]
        | packet d =>
          rw [hresp] at h
          dsimp only at h
          rw [Option.map_eq_some'] at h
          obtain ⟨⟨a1, a2, a3⟩, hw, hf⟩ := h
          simp only [Prod.mk.injEq] at hf
          rw [← hf.2.2]
          have ha := ih d (k + 1) a1 a2 a3 hw
          simp [countEnd_cons, ha, isEndSend]

/-- `_read_data(retry_on_locked=True)` sends no `END_MEMORYMGMT`. -/
theorem readDataRL_no_end (resp : Nat → TReply) (k fuel : Nat)
    (r : Except PyErr (List Nat)) (k' : Nat) (tr : List Ev)
    (h : readDataRL resp k fuel = some (r, k', tr)) : countEnd tr = 0 := by
  unfold readDataRL at h
  cases hresp : resp k with
  | timeout =>
    rw [hresp] at h
    simp only [Option.some.injEq, Prod.mk.injEq] at h
    rw [← h.2.2]
    rfl
  | packet d =>
    rw [hresp] at h
    rw [Option.map_eq_some'] at h
    obtain ⟨⟨a1, a2, a3⟩, hw, hf⟩ := h
    simp only [Prod.mk.injEq] at hf
    rw [← hf.2.2]
    have ha := rlLoop_no_end resp fuel d (k + 1) a1 a2 a3 hw
    simp [countEnd_cons, ha, isEndSend]

/-- The `START_MEMORYMGMT` entry loop sends no `END_MEMORYMGMT`. -/
theorem dmmEntryLoop_no_end (resp : Nat → TReply) :
    ∀ fuel k out k' tr, dmmEntryLoop resp k fuel = some (out, k', tr) →
      countEnd tr = 0 := by
  intro fuel
  induction fuel with
  | zero =>
    intro k out k' tr h
    exact absurd h (by simp [dmmEntryLoop])
  | succ fuel ih =>
    intro k out k' tr h
    rw [dmmEntryLoop] at h
    cases hrl : readDataRL resp k fuel with
    | none => rw [hrl] at h; simp at h
    | some r =>
      obtain ⟨r1, rk, rtr⟩ := r
      rw [hrl] at h
      have hr0 : countEnd rtr = 0 := readDataRL_no_end resp k fuel r1 rk rtr hrl
      cases r1 with
      | error e =>
        cases e with
        | timeoutError =>
          dsimp only at h
          rw [Option.map_eq_some'] at h
          obtain ⟨⟨a1, a2, a3⟩, hw, hf⟩ := h
          simp only [Prod.mk.injEq] at hf
          rw [← hf.2.2]
          have ha := ih rk a1 a2 a3 hw
          simp [countEnd_append, countEnd_cons, hr0, ha, isEndSend, START_MEMORYMGMT, END_MEMORYMGMT]
        | interruptedError =>
          dsimp only at h
          simp only [Option.some.injEq, Prod.mk.injEq] at h
          rw [← h.2.2]
          simp [countEnd_cons, hr0, isEndSend, START_MEMORYMGMT, END_MEMORYMGMT]
        | indexError =>
          dsimp only at h
          simp only [Option.some.injEq, Prod.mk.injEq] at h
          rw [← h.2.2]
          simp [countEnd_cons, hr0, isEndSend, START_MEMORYMGMT, END_MEMORYMGMT]
        | keyError =>
          dsimp only at h
          simp only [Option.some.injEq, Prod.mk.injEq] at h
          rw [← h.2.2]
          simp [countEnd_cons, hr0, isEndSend, START_MEMORYMGMT, END_MEMORYMGMT]
        | valueError =>
          dsimp only at h
          simp only [Option.some.injEq, Prod.mk.injEq] at h
          rw [← h.2.2]
          simp [countEnd_cons, hr0, isEndSend, START_MEMORYMGMT, END_MEMORYMGMT]
        | typeError =>
          dsimp only at h
          simp only [Option.some.injEq, Prod.mk.injEq] at h
          rw [← h.2.2]
          simp [countEnd_cons, hr0, isEndSend, START_MEMORYMGMT, END_MEMORYMGMT]
        | ioError =>
          dsimp only at h
          simp only [Option.some.injEq, Prod.mk.injEq] at h
          rw [← h.2.2]
          simp [countEnd_cons, hr0, isEndSend, START_MEMORYMGMT, END_MEMORYMGMT]
      | ok res =>
        dsimp only at h
        cases hpg : pyGet res 0 with
        | error e =>
          rw [hpg] at h
          simp only [Option.some.injEq, Prod.mk.injEq] at h
          rw [← h.2.2]
          simp [countEnd_cons, hr0, isEndSend, START_MEMORYMGMT, END_MEMORYMGMT]
        | ok b =>
          rw [hpg] at h
          dsimp only at h
          by_cases hb : b = SUCCESS
          · rw [if_pos hb] at h
            simp only [Option.some.injEq, Prod.mk.injEq] at h
            rw [← h.2.2]
            simp [countEnd_cons, hr0, isEndSend, START_MEMORYMGMT, END_MEMORYMGMT]
          · rw [if_neg hb] at h
            simp only [Option.some.injEq, Prod.mk.injEq] at h
            rw [← h.2.2]
            simp [countEnd_cons, hr0, isEndSend, START_MEMORYMGMT, END_MEMORYMGMT]

theorem countEnd_nil : countEnd [] = 0 := rfl

/-- C1: scoped pairing of the memory-management mode.  For every
execution of `_data_management_mode` around any body: if entry succeeded
(`START_MEMORYMGMT` reply's first byte equals `SUCCESS`), exactly one
`END_MEMORYMGMT` is sent on scope exit — whether or not the body raises;
if entry was declined (first byte differs from `SUCCESS`), zero
`END_MEMORYMGMT` commands are sent. -/
theorem dmm_end_pairing {α : Type} (resp : Nat → TReply) (fuel : Nat)
    (body : Nat → Except PyErr α × Nat × List Ev)
    (kw : Nat) (trw : List Ev) (out : DmmEntry) (k1 : Nat) (tre : List Ev)
    (res : Except PyErr α) (k2 : Nat) (trAll : List Ev)
    (hwait : waitStatusUnlockedFrom resp 0 fuel = some (.ok (), kw, trw))
    (hentry : dmmEntryLoop resp kw fuel = some (out, k1, tre))
    (hbody : ∀ j, countEnd (body j).2.2 = 0)
    (hrun : dataManagementMode resp fuel body = some (res, k2, trAll)) :
    (out = .entered → countEnd trAll = 1) ∧
      (out = .declined → countEnd trAll = 0) := by
  unfold dataManagementMode at hrun
  rw [hwait] at hrun
  dsimp only at hrun
  rw [hentry] at hrun
  have hw0 : countEnd trw = 0 := waitFrom_ok_no_end resp 0 fuel kw trw hwait
  have he0 : countEnd tre = 0 := dmmEntryLoop_no_end resp fuel kw out k1 tre hentry
  cases out with
  | entered =>
    refine ⟨fun _ => ?_, fun hc => DmmEntry.noConfusion hc⟩
    dsimp only at hrun
    unfold dmmFinally at hrun
    rw [if_pos rfl] at hrun
    cases hrd : readData (resp (body k1).2.1) with
    | error e =>
      rw [hrd] at hrun
      simp only [Option.some.injEq, Prod.mk.injEq] at hrun
      rw [← hrun.2.2]
      simp [countEnd_append, countEnd_cons, countEnd_nil, hw0, he0, hbody k1, isEndSend]
    | ok v =>
      rw [hrd] at hrun
      simp only [Option.some.injEq, Prod.mk.injEq] at hrun
      rw [← hrun.2.2]
      simp [countEnd_append, countEnd_cons, countEnd_nil, hw0, he0, hbody k1, isEndSend]
  | declined =>
    refine ⟨fun hc => DmmEntry.noConfusion hc, fun _ => ?_⟩
    dsimp only at hrun
    unfold dmmFinally at hrun
    rw [if_neg (by decide)] at hrun
    simp only [Option.some.injEq, Prod.mk.injEq] at hrun
    rw [← hrun.2.2]
    simp [countEnd_append, hw0, he0]
  | err e =>
    exact ⟨fun hc => DmmEntry.noConfusion hc, fun hc => DmmEntry.noConfusion hc⟩

/-- A device run for the memory-management scope: unlocked status, then a
successful `START_MEMORYMGMT` reply, then the `END_MEMORYMGMT` reply. -/
def respMgmtOk : Nat → TReply
  | 0 => .packet [1, 0xB9, 5]
  | 1 => .packet [1, 0xAD, 1]
  | _ => .packet [1, 0xD3, 1]

/-- Witness for `dmm_end_pairing`: on `respMgmtOk` with a trivial body,
the scope's full trace contains exactly one `END_MEMORYMGMT` send. -/
theorem dmm_end_pairing_witness :
    countEnd [Ev.send MOOLTIPASS_STATUS [], Ev.read,
      Ev.send START_MEMORYMGMT [], Ev.read,
      Ev.send END_MEMORYMGMT [], Ev.read] = 1 :=
  (dmm_end_pairing respMgmtOk 2 (fun j => (Except.ok (), j, []))
    1 [Ev.send MOOLTIPASS_STATUS [], Ev.read] DmmEntry.entered 2
    [Ev.send START_MEMORYMGMT [], Ev.read]
    (Except.ok ()) 3
    [Ev.send MOOLTIPASS_STATUS [], Ev.read, Ev.send START_MEMORYMGMT [], Ev.read,
     Ev.send END_MEMORYMGMT [], Ev.read]
    (by rfl) (by rfl) (fun _ => rfl) (by rfl)).1 rfl

/-! ### C5: empty favorite slots -/

/-- `READ_FLASH_NODE` command writes in a trace. -/
def isReadFlashSend : Ev → Bool
  | .send c _ => c = READ_FLASH_NODE
  | _ => false

/-- A `GET_FAVORITE` reply whose first two payload bytes are `(0, 0)`
makes the slot iteration return `none` after the single `GET_FAVORITE`
exchange. -/
theorem favSlot_empty (resp : Nat → TReply) (s k : Nat) (p : List Nat)
    (hrd : readData (resp k) = .ok p)
    (h0 : p[0]? = some 0) (h1 : p[1]? = some 0) :
    favSlot resp s k = (.ok none, k + 1, [Ev.send GET_FAVORITE [s], Ev.read]) := by
  unfold favSlot
  rw [hrd]
  dsimp only
  simp [pyGet, h0, h1]

/-- Every key of the favorites mapping comes from the processed slot
list. -/
theorem favLoop_keys (resp : Nat → TReply) :
    ∀ slots k res k' tr, favLoop resp slots k = (.ok res, k', tr) →
      ∀ s cl, (s, cl) ∈ res → s ∈ slots := by
  intro slots
  induction slots with
  | nil =>
    intro k res k' tr h s cl hm
    simp only [favLoop, Prod.mk.injEq, Except.ok.injEq] at h
    rw [← h.1] at hm
    exact absurd hm (List.not_mem_nil _)
  | cons a rest ih =>
    intro k res k' tr h s cl hm
    simp only [favLoop] at h
    rcases hfs : favSlot resp a k with ⟨r1, kx, trx⟩
    rw [hfs] at h
    cases r1 with
    | error e => simp at h
    | ok o =>
      cases o with
      | none =>
        dsimp only at h
        rcases hfl : favLoop resp rest kx with ⟨r2, k2, tr2⟩
        rw [hfl] at h
        cases r2 with
        | error e => simp at h
        | ok m =>
          simp only [Prod.mk.injEq, Except.ok.injEq] at h
          rw [← h.1] at hm
          exact List.mem_cons_of_mem a (ih kx m k2 tr2 hfl s cl hm)
      | some cl' =>
        dsimp only at h
        rcases hfl : favLoop resp rest kx with ⟨r2, k2, tr2⟩
        rw [hfl] at h
        cases r2 with
        | error e => simp at h
        | ok m =>
          simp only [Prod.mk.injEq, Except.ok.injEq] at h
          rw [← h.1] at hm
          rcases List.mem_cons.mp hm with he | he
          · rw [(Prod.mk.injEq _ _ _ _).mp he |>.1]
            exact List.mem_cons_self a rest
          · exact List.mem_cons_of_mem a (ih kx m k2 tr2 hfl s cl he)

/-- Splitting a successful favorites run at a successful prefix run. -/
theorem favLoop_append_ok (resp : Nat → TReply) :
    ∀ l1 l2 k res1 k1 tr1 res k' tr,
      favLoop resp l1 k = (.ok res1, k1, tr1) →
      favLoop resp (l1 ++ l2) k = (.ok res, k', tr) →
      ∃ m2 tr2, favLoop resp l2 k1 = (.ok m2, k', tr2) ∧ res = res1 ++ m2 := by
  intro l1
  induction l1 with
  | nil =>
    intro l2 k res1 k1 tr1 res k' tr h1 h2
    simp only [favLoop, Prod.mk.injEq, Except.ok.injEq] at h1
    obtain ⟨hres1, hk1, -⟩ := h1
    rw [List.nil_append] at h2
    exact ⟨res, tr, by rw [← hk1]; exact h2, by rw [← hres1]; simp⟩
  | cons a rest ih =>
    intro l2 k res1 k1 tr1 res k' tr h1 h2
    rw [List.cons_append] at h2
    simp only [favLoop] at h1 h2
    rcases hfs : favSlot resp a k with ⟨r1, kx, trx⟩
    rw [hfs] at h1 h2
    cases r1 with
    | error e => simp at h1
    | ok o =>
      cases o with
      | none =>
        dsimp only at h1 h2
        rcases hfl : favLoop resp rest kx with ⟨r2, k2, tr2⟩
        rw [hfl] at h1
        cases r2 with
        | error e => simp at h1
        | ok m =>
          simp only [Prod.mk.injEq, Except.ok.injEq] at h1
          obtain ⟨hm, hk, -⟩ := h1
          rcases hfl2 : favLoop resp (rest ++ l2) kx with ⟨r3, k3, tr3⟩
          rw [hfl2] at h2
          cases r3 with
          | error e => simp at h2
          | ok m3 =>
            simp only [Prod.mk.injEq, Except.ok.injEq] at h2
            obtain ⟨hm3, hk3, -⟩ := h2
            obtain ⟨m2, tr4, hfl4, hres⟩ := ih l2 kx m k2 tr2 m3 k3 tr3 hfl hfl2
            refine ⟨m2, tr4, ?_, ?_⟩
            · rw [← hk, ← hk3]; exact hfl4
            · rw [← hm3, ← hm, hres]
      | some cl =>
        dsimp only at h1 h2
        rcases hfl : favLoop resp rest kx with ⟨r2, k2, tr2⟩
        rw [hfl] at h1
        cases r2 with
        | error e => simp at h1
        | ok m =>
          simp only [Prod.mk.injEq, Except.ok.injEq] at h1
          obtain ⟨hm, hk, -⟩ := h1
          rcases hfl2 : favLoop resp (rest ++ l2) kx with ⟨r3, k3, tr3⟩
          rw [hfl2] at h2
          cases r3 with
          | error e => simp at h2
          | ok m3 =>
            simp only [Prod.mk.injEq, Except.ok.injEq] at h2
            obtain ⟨hm3, hk3, -⟩ := h2
            obtain ⟨m2, tr4, hfl4, hres⟩ := ih l2 kx m k2 tr2 m3 k3 tr3 hfl hfl2
            refine ⟨m2, tr4, ?_, ?_⟩
            · rw [← hk, ← hk3]; exact hfl4
            · rw [← hm3, ← hm, hres, List.cons_append]

/-- C5: for every slot of `range(14)`, in a `get_favorites_list` run that
returns a mapping, if the `GET_FAVORITE` reply for that slot decodes to a
payload whose first two address bytes are `(0, 0)`, then the slot is
absent from the returned mapping and its iteration issues no
`READ_FLASH_NODE` command. -/
theorem get_favorites_empty_slot (resp : Nat → TReply) (fuel : Nat)
    (s : Nat) (pre post : List Nat) (kw k1 ks : Nat)
    (trw tre tr1 : List Ev)
    (res1 res : List (Nat × List Nat × List Nat)) (p : List Nat)
    (kf : Nat) (trf : List Ev)
    (hsplit : List.range 14 = pre ++ s :: post)
    (hs1 : s ∉ pre) (hs2 : s ∉ post)
    (hwait : waitStatusUnlockedFrom resp 0 fuel = some (.ok (), kw, trw))
    (hentry : dmmEntryLoop resp kw fuel = some (.entered, k1, tre))
    (hpre : favLoop resp pre k1 = (.ok res1, ks, tr1))
    (hrd : readData (resp ks) = .ok p)
    (h0 : p[0]? = some 0) (h1 : p[1]? = some 0)
    (hrun : getFavoritesList resp fuel = some (.ok res, kf, trf)) :
    (∀ cl, (s, cl) ∉ res) ∧
      (favSlot resp s ks).2.2.countP (fun e => isReadFlashSend e) = 0 := by
  have hfs : favSlot resp s ks =
      (.ok none, ks + 1, [Ev.send GET_FAVORITE [s], Ev.read]) :=
    favSlot_empty resp s ks p hrd h0 h1
  refine ⟨?_, by rw [hfs]; rfl⟩
  unfold getFavoritesList dataManagementMode at hrun
  rw [hwait] at hrun
  dsimp only at hrun
  rw [hentry] at hrun
  dsimp only at hrun
  rcases hB : favLoop resp (List.range 14) k1 with ⟨b1, b2, b3⟩
  rw [hB] at hrun
  unfold dmmFinally at hrun
  rw [if_pos rfl] at hrun
  cases hrd2 : readData (resp b2) with
  | error e =>
    rw [hrd2] at hrun
    simp at hrun
  | ok v =>
    rw [hrd2] at hrun
    simp only [Option.some.injEq, Prod.mk.injEq] at hrun
    have hb1 : b1 = .ok res := hrun.1
    rw [hb1, hsplit] at hB
    obtain ⟨m2, tr2, hmid, hres⟩ :=
      favLoop_append_ok resp pre (s :: post) k1 res1 ks tr1 res b2 b3 hpre hB
    simp only [favLoop] at hmid
    rw [hfs] at hmid
    dsimp only at hmid
    rcases hfp : favLoop resp post (ks + 1) with ⟨r3, k3, tr3⟩
    rw [hfp] at hmid
    cases r3 with
    | error e => simp at hmid
    | ok m3 =>
      simp only [Prod.mk.injEq, Except.ok.injEq] at hmid
      intro cl hm
      rw [hres, ← hmid.1] at hm
      rcases List.mem_append.mp hm with hm' | hm'
      · exact hs1 (favLoop_keys resp pre k1 res1 ks tr1 hpre s cl hm')
      · exact hs2 (favLoop_keys resp post (ks + 1) m3 k3 tr3 hfp s cl hm')

/-- A device run for `get_favorites_list`: unlocked status, successful
`START_MEMORYMGMT`, all 14 `GET_FAVORITE` replies empty `(0, 0)`, and the
`END_MEMORYMGMT` reply. -/
def respFavEmpty : Nat → TReply
  | 0 => .packet [1, 0xB9, 5]
  | 1 => .packet [1, 0xAD, 1]
  | 16 => .packet [1, 0xD3, 1]
  | _ => .packet [2, 0xC7, 0, 0]

/-- Witness for `get_favorites_empty_slot` at slot 0 on `respFavEmpty`:
the slot-0 iteration issues no `READ_FLASH_NODE` command. -/
theorem get_favorites_empty_slot_witness :
    (favSlot respFavEmpty 0 2).2.2.countP (fun e => isReadFlashSend e) = 0 :=
  (get_favorites_empty_slot respFavEmpty 2 0 []
    [1, 2, 3, 4, 5, 6, 7, 8, 9, 10, 11, 12, 13] 1 2 2
    [Ev.send MOOLTIPASS_STATUS [], Ev.read]
    [Ev.send START_MEMORYMGMT [], Ev.read] [] [] [] [0, 0] 17
    ([Ev.send MOOLTIPASS_STATUS [], Ev.read,
      Ev.send START_MEMORYMGMT [], Ev.read] ++
     [Ev.send GET_FAVORITE [0], Ev.read, Ev.send GET_FAVORITE [1], Ev.read,
      Ev.send GET_FAVORITE [2], Ev.read, Ev.send GET_FAVORITE [3], Ev.read,
      Ev.send GET_FAVORITE [4], Ev.read, Ev.send GET_FAVORITE [5], Ev.read,
      Ev.send GET_FAVORITE [6], Ev.read, Ev.send GET_FAVORITE [7], Ev.read,
      Ev.send GET_FAVORITE [8], Ev.read, Ev.send GET_FAVORITE [9], Ev.read,
      Ev.send GET_FAVORITE [10], Ev.read, Ev.send GET_FAVORITE [11], Ev.read,
      Ev.send GET_FAVORITE [12], Ev.read, Ev.send GET_FAVORITE [13], Ev.read] ++
     [Ev.send END_MEMORYMGMT [], Ev.read])
    (by rfl) (by decide) (by decide) (by rfl) (by rfl) (by rfl) (by rfl)
    (by rfl) (by rfl) (by rfl)).2
